import Mathlib

/-! Verification development for the doro-skycam-core weather aggregation and
image-ingest pipeline.  The Python sources are shallowly embedded: dicts become
association lists over a value type `PyVal`, floats become exact rationals,
clock reads become explicit `Clock` parameters, and the filesystem effects of
the ingest scripts become explicit state records.  Definitions are translated
from the individual source files; `spec…` definitions restate the documented
contract for comparison with the code. -/

namespace Skycam

/-- Python dict lookup `d.get(k)` / `d[k]`: value of the first entry with the
given key, `none` when the key is absent. -/
def aget {κ β : Type} [DecidableEq κ] (d : List (κ × β)) (k : κ) : Option β :=
  match d with
  | [] => none
  | kv :: rest => if kv.1 = k then some kv.2 else aget rest k

/-- Python dict assignment `d[k] = v`: replaces the value in place when the key
exists, appends a new entry otherwise (insertion order preserved). -/
def aset {κ β : Type} [DecidableEq κ] (d : List (κ × β)) (k : κ) (v : β) : List (κ × β) :=
  match d with
  | [] => [(k, v)]
  | kv :: rest => if kv.1 = k then (k, v) :: rest else kv :: aset rest k v

/-- JSON/Python values stored in the weather dicts: numbers (modelled exactly
as rationals), strings, booleans, `None`/`null`, and composite values (arrays
or nested objects, which none of the embedded code reads through). -/
inductive PyVal : Type
  | num (q : ℚ)
  | str (s : String)
  | bool (b : Bool)
  | null
  | comp
  deriving DecidableEq

/-- A Python dict with string keys, as read from / written to the JSON files. -/
abbrev Dict := List (String × PyVal)

/-- Python `round(x)` to an integer: nearest integer, ties to even. -/
def pyRoundInt (x : ℚ) : ℤ :=
  let f := ⌊x⌋
  if x - f < 1/2 then f
  else if 1/2 < x - f then f + 1
  else if f % 2 = 0 then f else f + 1

/-- Python `round(x, 1)`. -/
def round1 (x : ℚ) : ℚ := (pyRoundInt (x * 10) : ℚ) / 10

/-- Python `int(x)`: truncation toward zero. -/
def pyInt (q : ℚ) : ℤ := if 0 ≤ q then ⌊q⌋ else -⌊-q⌋

/-- Python `x % m` for a positive real modulus `m`: result in `[0, m)`. -/
def qmod (x m : ℚ) : ℚ := x - m * ⌊x / m⌋

/-- Synodic month length `29.53059` used by both astronomy calculators
(fetch_online_weather.py line 69, generate_forecast.py line 151). -/
def lunar_month : ℚ := 29.53059

/-- Phase fraction of the current lunar cycle, from the integer day count since
the 2000-01-06 18:14 UTC new moon: `(days % 29.53059) / 29.53059`.  Both
`calculate_astronomy_data` and `calculate_basic_astronomy` compute it this
way. -/
def moon_phase_float (days_since_new_moon : ℤ) : ℚ :=
  qmod (days_since_new_moon : ℚ) lunar_month / lunar_month

/-- Moon illumination before clamping, exactly as written at
fetch_online_weather.py:92 and generate_forecast.py:161:
`abs(0.5 - p) * 200 if p <= 0.5 else (1 - p) * 200`. -/
def moon_illumination_raw (p : ℚ) : ℚ :=
  if p ≤ 0.5 then |0.5 - p| * 200 else (1 - p) * 200

/-- Moon illumination percent: the raw value clamped to `[0, 100]` via
`max(0, min(100, illumination))`. -/
def moon_illumination (p : ℚ) : ℚ := max 0 (min 100 (moon_illumination_raw p))

/-- The eight moon phase names, in cycle order, shared by both calculators. -/
def phase_names : List String :=
  ["New Moon", "Waxing Crescent", "First Quarter", "Waxing Gibbous",
   "Full Moon", "Waning Gibbous", "Last Quarter", "Waning Crescent"]

/-- Phase naming in generate_forecast.calculate_basic_astronomy (lines
154-159): `phase_names[int(moon_phase_float * 8) % 8]`. -/
def phase_name_forecast (p : ℚ) : String :=
  phase_names.getD ((pyInt (p * 8)) % 8).toNat ""

/-- Phase naming in fetch_online_weather.calculate_astronomy_data (lines
74-89): a threshold chain at 0.0625, 0.1875, 0.3125, 0.4375, 0.5625, 0.6875
and 0.8125. -/
def phase_name_online (p : ℚ) : String :=
  if p < 0.0625 then "New Moon"
  else if p < 0.1875 then "Waxing Crescent"
  else if p < 0.3125 then "First Quarter"
  else if p < 0.4375 then "Waxing Gibbous"
  else if p < 0.5625 then "Full Moon"
  else if p < 0.6875 then "Waning Gibbous"
  else if p < 0.8125 then "Last Quarter"
  else "Waning Crescent"

/-- Magnus dewpoint as inlined in fetch_local_weather.parse_to_standard_format
(lines 163-170): `alpha = (17.27*t)/(237.7+t) + rh/100`,
`dewpoint = 237.7*alpha/(17.27-alpha)`, rounded to one decimal. -/
def dewpoint_local_reader (tc rh : ℚ) : ℚ :=
  let a : ℚ := 17.27
  let b : ℚ := 237.7
  let alpha := ((a * tc) / (b + tc)) + (rh / 100)
  round1 ((b * alpha) / (a - alpha))

/-- Magnus dewpoint as inlined in fetch_online_weather.parse_to_forecast_format
(lines 136-142). -/
def dewpoint_online_reader (tc rh : ℚ) : ℚ :=
  let a : ℚ := 17.27
  let b : ℚ := 237.7
  let alpha := ((a * tc) / (b + tc)) + (rh / 100)
  round1 ((b * alpha) / (a - alpha))

/-- Magnus dewpoint as inlined in
update_simulated_weather.generate_realistic_weather (lines 47-50 with the
rounding applied at line 59). -/
def dewpoint_simulated (tc rh : ℚ) : ℚ :=
  let a : ℚ := 17.27
  let b : ℚ := 237.7
  let alpha := ((a * tc) / (b + tc)) + (rh / 100)
  round1 ((b * alpha) / (a - alpha))

/-- One entry of the OpenWeatherMap 5-day forecast list, restricted to the
fields `parse_to_forecast_format` reads. -/
structure OWMItem where
  dt_txt : String
  main_temp : ℚ
  clouds_all : ℚ
  main_humidity : ℚ
  wind_speed : ℚ
  weather_description : Option String
  deriving DecidableEq

/-- A point of the emitted `forecast_48h` sequence. -/
structure ForecastPoint where
  timestamp : String
  temperature_c : ℚ
  cloud_cover_pct : ℚ
  humidity_pct : ℚ
  wind_speed_kmh : ℚ
  conditions : String
  deriving DecidableEq

/-- One iteration of the `forecast_48h` loop in `parse_to_forecast_format`
(fetch_online_weather.py lines 147-154), wind speed converted m/s to km/h. -/
def owm_to_point (it : OWMItem) : ForecastPoint :=
  { timestamp := it.dt_txt
    temperature_c := it.main_temp
    cloud_cover_pct := it.clouds_all
    humidity_pct := it.main_humidity
    wind_speed_kmh := it.wind_speed * 3.6
    conditions := it.weather_description.getD "" }

/-- The `forecast_48h` builder of `parse_to_forecast_format`:
`for item in forecast_list[:16]` appending the converted points. -/
def forecast_48h_of_list (forecast_list : List OWMItem) : List ForecastPoint :=
  (forecast_list.take 16).map owm_to_point

/-- The six fields merge_weather_sources takes from the local channel first
(generate_forecast.py line 205). -/
def localPreferKeys : List String :=
  ["temperature_c", "humidity_pct", "pressure_hpa", "dewpoint_c",
   "wind_speed_kmh", "wind_direction_deg"]

/-- The three fields merge_weather_sources takes from the online channel
(generate_forecast.py line 212). -/
def onlinePreferKeys : List String := ["cloud_cover_pct", "visibility_km", "conditions"]

/-- The initial `merged` dict of merge_weather_sources (generate_forecast.py
lines 190-200): all fields `None` except `conditions = "Unknown"`. -/
def mergedInit : Dict :=
  [("temperature_c", .null), ("humidity_pct", .null), ("pressure_hpa", .null),
   ("dewpoint_c", .null), ("wind_speed_kmh", .null), ("wind_direction_deg", .null),
   ("cloud_cover_pct", .null), ("visibility_km", .null), ("conditions", .str "Unknown")]

/-- Result dict of a channel fetcher as consumed by generate_forecast: the
fields accessed via `.get("ok")`, `"current" in …`, `.get("error")`,
`.get("source", …)` and `.get("forecast_48h", [])`. -/
structure SourceDoc where
  ok : Bool
  current : Option Dict
  error : Option String
  source : Option String
  forecast_48h : Option (List Dict)
  deriving DecidableEq

/-- Body of the local-preference loop (generate_forecast.py lines 205-207):
`if key in local_current and local_current[key] is not None`. -/
def localStep (local_current : Dict) (m : Dict) (k : String) : Dict :=
  match aget local_current k with
  | some v => if v ≠ PyVal.null then aset m k v else m
  | none => m

/-- Body of the online-preference loop (generate_forecast.py lines 212-214):
`if key in online_current and (merged[key] is None or key in [the three])`. -/
def onlineStep (online_current : Dict) (m : Dict) (k : String) : Dict :=
  match aget online_current k with
  | some v =>
      if aget m k = some PyVal.null ∨ k ∈ onlinePreferKeys then aset m k v else m
  | none => m

/-- Body of the fill loop (generate_forecast.py lines 217-219):
`if merged[key] is None and key in online_current`. -/
def fillStep (online_current : Dict) (m : Dict) (k : String) : Dict :=
  if aget m k = some PyVal.null then
    match aget online_current k with
    | some v => aset m k v
    | none => m
  else m

/-- generate_forecast.merge_weather_sources (lines 188-221): local data first
for the six measurement fields, online data for cloud cover, visibility and
conditions, then a fill of remaining `None` fields from the online dict. -/
def merge_weather_sources (online_data local_data : SourceDoc) : Dict :=
  let merged := mergedInit
  let merged :=
    match local_data.ok, local_data.current with
    | true, some local_current => localPreferKeys.foldl (localStep local_current) merged
    | _, _ => merged
  match online_data.ok, online_data.current with
  | true, some online_current =>
      let merged2 := onlinePreferKeys.foldl (onlineStep online_current) merged
      (merged2.map Prod.fst).foldl (fillStep online_current) merged2
  | _, _ => merged

/-- A forecast entry as consumed by the window scorer: its (parsed) timestamp
and its cloud cover percentage. -/
structure WFPoint where
  ts : ℚ
  cloud_cover_pct : ℚ
  deriving DecidableEq

/-- An observation window as emitted by calculate_observation_windows,
restricted to the rating-relevant fields (the formatted period/start/end
strings and the free-text note are omitted). -/
structure ObsWindow where
  quality : String
  rating : ℚ
  avg_cloud_cover_pct : ℚ
  moon_interference : String
  recommended_targets : List String
  deriving DecidableEq

def targetsExcellent : List String :=
  ["Faint galaxies", "Nebulae", "Star clusters", "Deep-sky imaging"]

def targetsGood : List String := ["Planets", "Bright deep-sky objects", "Moon features"]

def targetsModerate : List String := ["Planets", "Moon", "Bright stars"]

def targetsPoor : List String := ["Not recommended for observation"]

/-- Forecast entries falling inside a period (generate_forecast.py lines
80-88): `period["start"] <= ts <= period["end"]`, both bounds inclusive. -/
def periodForecasts (forecast : List WFPoint) (s e : ℚ) : List WFPoint :=
  forecast.filter (fun f => decide (s ≤ f.ts) && decide (f.ts ≤ e))

/-- Average cloud cover of the matched points (generate_forecast.py line 94). -/
def windowAvgCloud (pf : List WFPoint) : ℚ :=
  (pf.map WFPoint.cloud_cover_pct).sum / pf.length

/-- The per-period body of calculate_observation_windows (generate_forecast.py
lines 78-140): drop the window when no forecast point matches, otherwise take
the base quality/rating/targets from the cloud-cover thresholds, subtract the
moon-interference penalty, clamp to `[0, 10]` and round. -/
def scoreWindow (forecast : List WFPoint) (s e moon_illumination_pct : ℚ) :
    Option ObsWindow :=
  let pf := periodForecasts forecast s e
  if pf = [] then none
  else
    let avg_clouds := windowAvgCloud pf
    let base : String × ℚ × List String :=
      if avg_clouds < 20 then ("excellent", 9.5, targetsExcellent)
      else if avg_clouds < 40 then ("good", 7.5, targetsGood)
      else if avg_clouds < 60 then ("moderate", 5.0, targetsModerate)
      else ("poor", 3.0, targetsPoor)
    let moon : String × ℚ :=
      if moon_illumination_pct > 80 then ("high", base.2.1 - 1.5)
      else if moon_illumination_pct > 40 then ("moderate", base.2.1 - 0.5)
      else ("minimal", base.2.1)
    let rating := max 0 (min 10 moon.2)
    some { quality := base.1, rating := round1 rating,
           avg_cloud_cover_pct := round1 avg_clouds,
           moon_interference := moon.1, recommended_targets := base.2.2 }

/-- Spec-side base rating from the cloud-cover thresholds of section 4.5. -/
def specBaseRating (avg : ℚ) : ℚ :=
  if avg < 20 then 9.5 else if avg < 40 then 7.5 else if avg < 60 then 5.0 else 3.0

/-- Spec-side quality label from the cloud-cover thresholds. -/
def specQuality (avg : ℚ) : String :=
  if avg < 20 then "excellent" else if avg < 40 then "good"
  else if avg < 60 then "moderate" else "poor"

/-- Spec-side recommended-target label set for each quality band. -/
def specTargets (avg : ℚ) : List String :=
  if avg < 20 then targetsExcellent else if avg < 40 then targetsGood
  else if avg < 60 then targetsModerate else targetsPoor

/-- Spec-side moon-interference penalty: `>80 → 1.5`, `>40 → 0.5`, else 0. -/
def specMoonPenalty (m : ℚ) : ℚ := if m > 80 then 1.5 else if m > 40 then 0.5 else 0

/-- Spec-side moon-interference label. -/
def specMoonInterference (m : ℚ) : String :=
  if m > 80 then "high" else if m > 40 then "moderate" else "minimal"

/-- Spec-side final rating: base minus penalty, clamped to `[0, 10]`. -/
def specFinalRating (avg m : ℚ) : ℚ :=
  max 0 (min 10 (specBaseRating avg - specMoonPenalty m))

/-- Spec-side observation window predicted for a nonempty matched point set. -/
def specWindow (pf : List WFPoint) (m : ℚ) : ObsWindow :=
  { quality := specQuality (windowAvgCloud pf)
    rating := specFinalRating (windowAvgCloud pf) m
    avg_cloud_cover_pct := round1 (windowAvgCloud pf)
    moon_interference := specMoonInterference m
    recommended_targets := specTargets (windowAvgCloud pf) }

/-- A `data_sources` entry of the composed forecast document
(generate_forecast.py lines 272-281). -/
structure DataSourceEntry where
  available : Bool
  source : String
  error : Option String
  deriving DecidableEq

/-- Building one `data_sources` entry: `available = ok`,
`source = get("source", "Not available")`, `error = get("error")` when the
channel failed, `None` otherwise. -/
def mkDataSourceEntry (d : SourceDoc) : DataSourceEntry :=
  { available := d.ok
    source := d.source.getD "Not available"
    error := if d.ok then none else d.error }

/-- The composed forecast document, restricted to the fields claimed about:
per-channel availability, the fused `current` dict and `forecast_48h`. -/
structure ForecastDoc where
  data_sources_online : DataSourceEntry
  data_sources_local : DataSourceEntry
  current : Dict
  forecast_48h : List Dict
  deriving DecidableEq

/-- generate_forecast.generate_combined_forecast (lines 262-293), restricted
to the claimed fields: the fused current dict, the per-channel source entries,
and `forecast_48h = online.get("forecast_48h", []) if online ok else []`. -/
def generate_combined_forecast (online_data local_data : SourceDoc) : ForecastDoc :=
  { data_sources_online := mkDataSourceEntry online_data
    data_sources_local := mkDataSourceEntry local_data
    current := merge_weather_sources online_data local_data
    forecast_48h := if online_data.ok then online_data.forecast_48h.getD [] else [] }

/-- The alias table of weather_station_receiver.parse_json_weather (lines
120-144), in source order. -/
def field_map : List (String × String) :=
  [("temp", "temperature_c"), ("temperature", "temperature_c"),
   ("temp_c", "temperature_c"), ("t", "temperature_c"),
   ("humidity", "humidity_pct"), ("rh", "humidity_pct"),
   ("relative_humidity", "humidity_pct"),
   ("pressure", "pressure_hpa"), ("press", "pressure_hpa"), ("p", "pressure_hpa"),
   ("wind_speed", "wind_speed_kmh"), ("wind_speed_kmh", "wind_speed_kmh"),
   ("wind", "wind_speed_kmh"),
   ("wind_dir", "wind_direction_deg"), ("wind_direction", "wind_direction_deg"),
   ("dewpoint", "dewpoint_c"), ("dew_point", "dewpoint_c"), ("dp", "dewpoint_c")]

/-- Python `key.lower()`, applied characterwise to the key (the alias table
only uses basic latin keys). -/
def pyLower (s : String) : String := String.mk (s.data.map Char.toLower)

/-- `field_map.get(key.lower(), key)`: the canonical field an incoming key is
mapped to, defaulting to the unlowered key itself. -/
def targetKey (k : String) : String := (aget field_map (pyLower k)).getD k

/-- Value of a digit string (callers guarantee all characters are digits). -/
def decDigitsVal (l : List Char) : ℕ := l.foldl (fun n c => 10 * n + (c.toNat - 48)) 0

/-- Python `float(s)` on a plain decimal string: optional sign, digits, an
optional single decimal point.  Exponent, infinity and nan spellings are
modelled as non-convertible. -/
def pyFloatOfString (s : String) : Option ℚ :=
  let p : ℚ × List Char :=
    match s.data with
    | '-' :: t => (-1, t)
    | '+' :: t => (1, t)
    | t => (1, t)
  let ip := p.2.takeWhile Char.isDigit
  let rest := p.2.drop ip.length
  match rest with
  | [] => if ip = [] then none else some (p.1 * decDigitsVal ip)
  | '.' :: frac =>
      if frac.all Char.isDigit ∧ (ip ≠ [] ∨ frac ≠ []) then
        some (p.1 * ((decDigitsVal ip : ℚ) + (decDigitsVal frac : ℚ) / 10 ^ frac.length))
      else none
  | _ => none

/-- Python `float(value)` on a JSON value: numbers convert to themselves,
booleans to 0/1, decimal strings parse, everything else raises (modelled as
`none`, which parse_json_weather swallows). -/
def pyFloat : PyVal → Option ℚ
  | .num q => some q
  | .bool b => some (if b then 1 else 0)
  | .str s => pyFloatOfString s
  | .null => none
  | .comp => none

/-- One iteration of the parse_json_weather loop (lines 146-152): map the key
through the alias table, keep it only when the target is a canonical field and
`float(value)` succeeds. -/
def normalizeStep (acc : Dict) (kv : String × PyVal) : Dict :=
  if targetKey kv.1 ∈ field_map.map Prod.snd then
    match pyFloat kv.2 with
    | some q => aset acc (targetKey kv.1) (PyVal.num q)
    | none => acc
  else acc

/-- A parsed JSON payload: either an object (a dict to iterate) or any other
JSON value, whose missing `.items()` raises inside parse_json_weather. -/
inductive PyJson : Type
  | obj (items : List (String × PyVal))
  | nonObject
  deriving DecidableEq

/-- The key/value pairs a payload contributes: none for a non-object. -/
def jsonItems : PyJson → List (String × PyVal)
  | .obj d => d
  | .nonObject => []

/-- weather_station_receiver.parse_json_weather (lines 114-157): fold the
alias mapping over the items and return `None` when nothing was extracted
(including the non-object case, where the internal exception handler fires). -/
def parse_json_weather : PyJson → Option Dict
  | .nonObject => none
  | .obj data =>
      let normalized := data.foldl normalizeStep []
      if normalized = [] then none else some normalized

/-- An item is kept by parse_json_weather iff its key maps to a canonical
field and its value converts to a number. -/
def recognizedNumeric (kv : String × PyVal) : Bool :=
  decide (targetKey kv.1 ∈ field_map.map Prod.snd) && (pyFloat kv.2).isSome

/-- weather_station_receiver.update_from_json (lines 159-171): `input = none`
models a JSON decode error.  On success the normalized fields are merged into
the stored record (`current.update(normalized)`) and write_weather stamps a
timestamp only when none is stored. -/
def update_from_json (input : Option PyJson) (store : Dict) (now : String) :
    Bool × Dict :=
  match input with
  | none => (false, store)
  | some j =>
      match parse_json_weather j with
      | none => (false, store)
      | some normalized =>
          let current := normalized.foldl (fun c kv => aset c kv.1 (kv.2)) store
          let written :=
            if (aget current "timestamp").isSome then current
            else aset current "timestamp" (PyVal.str now)
          (true, written)

/-- A clock reading: the `isoformat()` string and the `%Y/%m/%d` archive
partition of the same instant. -/
structure Clock where
  iso : String
  date : String
  deriving DecidableEq

/-- A file in the inbox drop directory: name, modification time, size and an
opaque content identifier (copies share the identifier). -/
structure InFile where
  name : String
  mtime : ℚ
  size : ℕ
  content : ℕ
  deriving DecidableEq

/-- The status record written by skywatch_inbox_ingest (lines 42-48). -/
structure StatusRec where
  last_event : String
  timestamp : String
  last_filename : String
  last_size_bytes : ℕ
  connection : String
  deriving DecidableEq

/-- Filesystem state touched by the inbox-drain step: the inbox listing, the
well-known latest file, the flat gallery, the date-partitioned archive and the
status record. -/
structure SkyFS where
  inbox : List InFile
  latest : Option ℕ
  gallery : List (String × ℕ)
  archive : List ((String × String) × ℕ)
  status : Option StatusRec
  deriving DecidableEq

/-- skywatch_inbox_ingest._newest_jpg: the file with maximal mtime, keeping
the earlier listed file on ties (Python `max` keeps the first maximum). -/
def newest_jpg (files : List InFile) : Option InFile :=
  files.foldl
    (fun best f =>
      match best with
      | none => some f
      | some g => if g.mtime < f.mtime then some f else best)
    none

/-- skywatch_inbox_ingest.ingest_latest (lines 24-51): copy the newest inbox
image to the latest file, the gallery and the dated archive directory, then
overwrite the status record; the source file stays in the inbox. -/
def ingest_latest (now : Clock) (fs : SkyFS) : Bool × SkyFS :=
  match newest_jpg fs.inbox with
  | none => (false, fs)
  | some newest =>
      (true,
        { fs with
            latest := some newest.content
            gallery := aset fs.gallery newest.name newest.content
            archive := aset fs.archive (now.date, newest.name) newest.content
            status := some { last_event := "image_received", timestamp := now.iso,
                             last_filename := newest.name,
                             last_size_bytes := newest.size,
                             connection := "active" } })

/-- The status record written by the FTP receiver (lines 140-157), which also
carries the peer address. -/
structure FtpStatusRec where
  last_event : String
  timestamp : String
  last_filename : String
  last_size_bytes : ℕ
  connection : String
  receiver_address : String
  deriving DecidableEq

/-- A completed upload as seen by the handler: name, size and content;
`none` at the call site models a vanished file. -/
structure Upload where
  name : String
  size : ℕ
  content : ℕ
  deriving DecidableEq

/-- Filesystem state touched by the FTP receiver's image path. -/
structure FtpFS where
  archive : List ((String × String) × ℕ)
  gallery : List (String × ℕ)
  latest : Option ℕ
  status : Option FtpStatusRec
  deriving DecidableEq

/-- SkyWatchFTPHandler._process_image_complete (skywatch_ftp_receiver.py lines
61-87): return untouched on a missing or zero-byte upload, otherwise copy into
the dated archive and the gallery and overwrite the status record.  The
receiver writes no latest file. -/
def process_image_complete (now : Clock) (peer : String) (upload : Option Upload)
    (fs : FtpFS) : FtpFS :=
  match upload with
  | none => fs
  | some u =>
      if u.size = 0 then fs
      else
        { fs with
            archive := aset fs.archive (now.date, u.name) u.content
            gallery := aset fs.gallery u.name u.content
            status := some { last_event := "image_received", timestamp := now.iso,
                             last_filename := u.name, last_size_bytes := u.size,
                             connection := "active", receiver_address := peer } }

/-! Association-list lemmas. -/

theorem aget_aset_self {κ β : Type} [DecidableEq κ] (d : List (κ × β)) (k : κ) (v : β) :
    aget (aset d k v) k = some v := by
  induction d with
  | nil => simp [aget, aset]
  | cons kv rest ih =>
      by_cases h : kv.1 = k
      · simp [aset, h, aget]
      · simp [aset, h, aget, ih]

theorem aget_aset_ne {κ β : Type} [DecidableEq κ] (d : List (κ × β)) {k' k : κ} (v : β)
    (h : k' ≠ k) : aget (aset d k' v) k = aget d k := by
  induction d with
  | nil => simp [aget, aset, h]
  | cons kv rest ih =>
      by_cases hk : kv.1 = k'
      · simp [aset, hk, aget, h]
      · simp [aset, hk, aget, ih]

theorem aset_ne_nil {κ β : Type} [DecidableEq κ] (d : List (κ × β)) (k : κ) (v : β) :
    aset d k v ≠ [] := by
  cases d with
  | nil => simp [aset]
  | cons kv rest => by_cases h : kv.1 = k <;> simp [aset, h]

theorem aset_aset_self {κ β : Type} [DecidableEq κ] (d : List (κ × β)) (k : κ) (v w : β) :
    aset (aset d k v) k w = aset d k w := by
  induction d with
  | nil => simp [aset]
  | cons kv rest ih =>
      by_cases h : kv.1 = k
      · simp [aset, h]
      · simp [aset, h, ih]

theorem aget_eq_none_iff {κ β : Type} [DecidableEq κ] (d : List (κ × β)) (k : κ) :
    aget d k = none ↔ ∀ kv ∈ d, kv.1 ≠ k := by
  induction d with
  | nil => simp [aget]
  | cons kv rest ih => by_cases h : kv.1 = k <;> simp [aget, h, ih]

/-! Step and fold lemmas for merge_weather_sources. -/

theorem aget_localStep_ne (lc m : Dict) {k0 k : String} (h : k0 ≠ k) :
    aget (localStep lc m k0) k = aget m k := by
  unfold localStep
  cases hv : aget lc k0 with
  | none => rfl
  | some v =>
      dsimp only
      by_cases hnn : v ≠ PyVal.null
      · rw [if_pos hnn]
        exact aget_aset_ne m v h
      · simp [hnn]

theorem aget_localStep_self (lc m : Dict) (k : String) (v : PyVal)
    (hv : aget lc k = some v) (hnn : v ≠ PyVal.null) :
    aget (localStep lc m k) k = some v := by
  unfold localStep
  rw [hv]
  simp [hnn, aget_aset_self]

theorem aget_localFold_not_mem (lc : Dict) (keys : List String) (m : Dict) (k : String)
    (hk : k ∉ keys) : aget (keys.foldl (localStep lc) m) k = aget m k := by
  induction keys generalizing m with
  | nil => rfl
  | cons k0 rest ih =>
      have hne : k0 ≠ k := by intro h; exact hk (by simp [h])
      have hrest : k ∉ rest := fun h => hk (by simp [h])
      rw [List.foldl_cons, ih _ hrest, aget_localStep_ne lc m hne]

theorem aget_localFold_mem (lc : Dict) (keys : List String) (m : Dict) (k : String)
    (hk : k ∈ keys) (v : PyVal) (hv : aget lc k = some v) (hnn : v ≠ PyVal.null) :
    aget (keys.foldl (localStep lc) m) k = some v := by
  induction keys generalizing m with
  | nil => cases hk
  | cons k0 rest ih =>
      rw [List.foldl_cons]
      by_cases hmem : k ∈ rest
      · exact ih _ hmem
      · have hk0 : k0 = k := by
          rcases List.mem_cons.mp hk with h | h
          · exact h.symm
          · exact absurd h hmem
        subst hk0
        rw [aget_localFold_not_mem lc rest _ k0 hmem, aget_localStep_self lc m k0 v hv hnn]

theorem aget_onlineStep_ne (oc m : Dict) {k0 k : String} (h : k0 ≠ k) :
    aget (onlineStep oc m k0) k = aget m k := by
  unfold onlineStep
  cases hv : aget oc k0 with
  | none => rfl
  | some v =>
      dsimp only
      by_cases hc : aget m k0 = some PyVal.null ∨ k0 ∈ onlinePreferKeys
      · rw [if_pos hc]
        exact aget_aset_ne m v h
      · simp [hc]

theorem aget_onlineStep_self (oc m : Dict) (k : String) (hin : k ∈ onlinePreferKeys)
    (v : PyVal) (hv : aget oc k = some v) :
    aget (onlineStep oc m k) k = some v := by
  unfold onlineStep
  rw [hv]
  simp [hin, aget_aset_self]

theorem aget_onlineFold_not_mem (oc : Dict) (keys : List String) (m : Dict) (k : String)
    (hk : k ∉ keys) : aget (keys.foldl (onlineStep oc) m) k = aget m k := by
  induction keys generalizing m with
  | nil => rfl
  | cons k0 rest ih =>
      have hne : k0 ≠ k := by intro h; exact hk (by simp [h])
      have hrest : k ∉ rest := fun h => hk (by simp [h])
      rw [List.foldl_cons, ih _ hrest, aget_onlineStep_ne oc m hne]

theorem aget_onlineFold_mem (oc : Dict) (keys : List String) (m : Dict) (k : String)
    (hk : k ∈ keys) (hin : k ∈ onlinePreferKeys) (v : PyVal) (hv : aget oc k = some v) :
    aget (keys.foldl (onlineStep oc) m) k = some v := by
  induction keys generalizing m with
  | nil => cases hk
  | cons k0 rest ih =>
      rw [List.foldl_cons]
      by_cases hmem : k ∈ rest
      · exact ih _ hmem
      · have hk0 : k0 = k := by
          rcases List.mem_cons.mp hk with h | h
          · exact h.symm
          · exact absurd h hmem
        subst hk0
        rw [aget_onlineFold_not_mem oc rest _ k0 hmem, aget_onlineStep_self oc m k0 hin v hv]

theorem aget_fillStep_ne (oc m : Dict) {k0 k : String} (h : k0 ≠ k) :
    aget (fillStep oc m k0) k = aget m k := by
  unfold fillStep
  by_cases hc : aget m k0 = some PyVal.null
  · rw [if_pos hc]
    cases hv : aget oc k0 with
    | none => rfl
    | some v => exact aget_aset_ne m v h
  · rw [if_neg hc]

theorem aget_fillFold_nonnull (oc : Dict) (keys : List String) (m : Dict) (k : String)
    (v : PyVal) (hm : aget m k = some v) (hnn : v ≠ PyVal.null) :
    aget (keys.foldl (fillStep oc) m) k = some v := by
  induction keys generalizing m with
  | nil => exact hm
  | cons k0 rest ih =>
      rw [List.foldl_cons]
      by_cases h : k0 = k
      · subst h
        have hid : fillStep oc m k0 = m := by
          unfold fillStep
          rw [hm]
          simp [hnn]
        rw [hid]
        exact ih _ hm
      · exact ih _ ((aget_fillStep_ne oc m h).trans hm)

theorem aget_fillFold_null_null (oc : Dict) (keys : List String) (m : Dict) (k : String)
    (hm : aget m k = some PyVal.null) (ho : aget oc k = some PyVal.null) :
    aget (keys.foldl (fillStep oc) m) k = some PyVal.null := by
  induction keys generalizing m with
  | nil => exact hm
  | cons k0 rest ih =>
      rw [List.foldl_cons]
      by_cases h : k0 = k
      · subst h
        have hstep : aget (fillStep oc m k0) k0 = some PyVal.null := by
          unfold fillStep
          rw [hm, ho]
          simp [aget_aset_self]
        exact ih _ hstep
      · exact ih _ ((aget_fillStep_ne oc m h).trans hm)

theorem local_online_disjoint : ∀ k ∈ localPreferKeys, k ∉ onlinePreferKeys := by decide

theorem online_local_disjoint : ∀ k ∈ onlinePreferKeys, k ∉ localPreferKeys := by decide

/-- C1 (amended): with both channels fresh, merge_weather_sources prefers the
local channel for the six measurement fields (any non-null local value wins)
and takes cloud cover, visibility and conditions from the online channel
whenever present; the fused dict carries no provenance mapping. -/
theorem merge_weather_sources_precedence (online_data local_data : SourceDoc)
    (local_current online_current : Dict)
    (hl : local_data.ok = true) (hlc : local_data.current = some local_current)
    (ho : online_data.ok = true) (hoc : online_data.current = some online_current) :
    (∀ k ∈ localPreferKeys, ∀ v, aget local_current k = some v → v ≠ PyVal.null →
        aget (merge_weather_sources online_data local_data) k = some v) ∧
    (∀ k ∈ onlinePreferKeys, ∀ v, aget online_current k = some v →
        aget (merge_weather_sources online_data local_data) k = some v) := by
  have hm : merge_weather_sources online_data local_data =
      ((onlinePreferKeys.foldl (onlineStep online_current)
          (localPreferKeys.foldl (localStep local_current) mergedInit)).map Prod.fst).foldl
        (fillStep online_current)
        (onlinePreferKeys.foldl (onlineStep online_current)
          (localPreferKeys.foldl (localStep local_current) mergedInit)) := by
    simp only [merge_weather_sources, hl, hlc, ho, hoc]
  rw [hm]
  constructor
  · intro k hk v hv hnn
    have hno : k ∉ onlinePreferKeys := local_online_disjoint k hk
    have h1 : aget (localPreferKeys.foldl (localStep local_current) mergedInit) k = some v :=
      aget_localFold_mem local_current localPreferKeys mergedInit k hk v hv hnn
    have h2 : aget (onlinePreferKeys.foldl (onlineStep online_current)
        (localPreferKeys.foldl (localStep local_current) mergedInit)) k = some v := by
      rw [aget_onlineFold_not_mem online_current onlinePreferKeys _ k hno]
      exact h1
    exact aget_fillFold_nonnull online_current _ _ k v h2 hnn
  · intro k hk v hv
    have h2 : aget (onlinePreferKeys.foldl (onlineStep online_current)
        (localPreferKeys.foldl (localStep local_current) mergedInit)) k = some v :=
      aget_onlineFold_mem online_current onlinePreferKeys _ k hk hk v hv
    by_cases hnull : v = PyVal.null
    · subst hnull
      exact aget_fillFold_null_null online_current _ _ k h2 hv
    · exact aget_fillFold_nonnull online_current _ _ k v h2 hnull

/-- C1 counterexample: with both channels fresh, `local.temperature_c = 10`
and `online.temperature_c = 20`, the fused dict consists of exactly the nine
weather fields and nothing else — there is no provenance entry of any kind,
so `provenance.temperature_c == "local"` has no referent — although the fused
temperature is indeed 10. -/
theorem merge_weather_sources_no_provenance :
    (merge_weather_sources
        (⟨true, some [("temperature_c", PyVal.num 20)], none, none, none⟩ : SourceDoc)
        (⟨true, some [("temperature_c", PyVal.num 10)], none, none, none⟩ : SourceDoc)).map
        Prod.fst =
      ["temperature_c", "humidity_pct", "pressure_hpa", "dewpoint_c",
       "wind_speed_kmh", "wind_direction_deg", "cloud_cover_pct", "visibility_km",
       "conditions"] ∧
    aget (merge_weather_sources
        (⟨true, some [("temperature_c", PyVal.num 20)], none, none, none⟩ : SourceDoc)
        (⟨true, some [("temperature_c", PyVal.num 10)], none, none, none⟩ : SourceDoc))
      "provenance" = none ∧
    aget (merge_weather_sources
        (⟨true, some [("temperature_c", PyVal.num 20)], none, none, none⟩ : SourceDoc)
        (⟨true, some [("temperature_c", PyVal.num 10)], none, none, none⟩ : SourceDoc))
      "temperature_c" = some (PyVal.num 10) := by
  refine ⟨by decide, by decide, by decide⟩

/-- Witness for C1 at the spec's example: local temperature 10 beats online
temperature 20, and online cloud cover 30 is taken when local has none. -/
theorem merge_weather_sources_precedence_witness :
    aget (merge_weather_sources
        (⟨true, some [("temperature_c", PyVal.num 20), ("cloud_cover_pct", PyVal.num 30)],
          none, none, none⟩ : SourceDoc)
        (⟨true, some [("temperature_c", PyVal.num 10)], none, none, none⟩ : SourceDoc))
      "temperature_c" = some (PyVal.num 10) ∧
    aget (merge_weather_sources
        (⟨true, some [("temperature_c", PyVal.num 20), ("cloud_cover_pct", PyVal.num 30)],
          none, none, none⟩ : SourceDoc)
        (⟨true, some [("temperature_c", PyVal.num 10)], none, none, none⟩ : SourceDoc))
      "cloud_cover_pct" = some (PyVal.num 30) :=
  ⟨(merge_weather_sources_precedence _ _
        [("temperature_c", PyVal.num 10)]
        [("temperature_c", PyVal.num 20), ("cloud_cover_pct", PyVal.num 30)]
        rfl rfl rfl rfl).1 "temperature_c" (by decide) (PyVal.num 10) rfl (by decide),
   (merge_weather_sources_precedence _ _
        [("temperature_c", PyVal.num 10)]
        [("temperature_c", PyVal.num 20), ("cloud_cover_pct", PyVal.num 30)]
        rfl rfl rfl rfl).2 "cloud_cover_pct" (by decide) (PyVal.num 30) rfl⟩

/-- C7: when the online fetch fails and the local fetch succeeds, the composed
document still carries the valid local measurement fields in `current`, an
empty `forecast_48h`, `data_sources.online.available = false` and the online
failure reason, without aborting (the composer is a total function). -/
theorem generate_combined_forecast_partial_failure (online_data local_data : SourceDoc)
    (local_current : Dict)
    (ho : online_data.ok = false) (hl : local_data.ok = true)
    (hlc : local_data.current = some local_current) :
    (generate_combined_forecast online_data local_data).data_sources_online.available = false ∧
    (generate_combined_forecast online_data local_data).data_sources_online.error =
      online_data.error ∧
    (generate_combined_forecast online_data local_data).forecast_48h = [] ∧
    (generate_combined_forecast online_data local_data).data_sources_local.available = true ∧
    (∀ k ∈ localPreferKeys, ∀ v, aget local_current k = some v → v ≠ PyVal.null →
        aget (generate_combined_forecast online_data local_data).current k = some v) := by
  refine ⟨by simp [generate_combined_forecast, mkDataSourceEntry, ho],
    by simp [generate_combined_forecast, mkDataSourceEntry, ho],
    by simp [generate_combined_forecast, ho],
    by simp [generate_combined_forecast, mkDataSourceEntry, hl],
    ?_⟩
  intro k hk v hv hnn
  have hm : merge_weather_sources online_data local_data =
      localPreferKeys.foldl (localStep local_current) mergedInit := by
    simp only [merge_weather_sources, hl, hlc, ho]
  show aget (merge_weather_sources online_data local_data) k = some v
  rw [hm]
  exact aget_localFold_mem local_current localPreferKeys mergedInit k hk v hv hnn

/-- Witness for C7: a failed online fetch with error "Timeout" and a local
reading of 10 degrees yields available=false, the recorded reason, an empty
forecast and the local temperature in `current`. -/
theorem generate_combined_forecast_partial_failure_witness :
    (generate_combined_forecast
        (⟨false, none, some "Timeout", none, none⟩ : SourceDoc)
        (⟨true, some [("temperature_c", PyVal.num 10)], none,
          some "Local Weather Station (file)", none⟩ : SourceDoc)).data_sources_online.available
      = false ∧
    (generate_combined_forecast
        (⟨false, none, some "Timeout", none, none⟩ : SourceDoc)
        (⟨true, some [("temperature_c", PyVal.num 10)], none,
          some "Local Weather Station (file)", none⟩ : SourceDoc)).data_sources_online.error
      = some "Timeout" ∧
    (generate_combined_forecast
        (⟨false, none, some "Timeout", none, none⟩ : SourceDoc)
        (⟨true, some [("temperature_c", PyVal.num 10)], none,
          some "Local Weather Station (file)", none⟩ : SourceDoc)).forecast_48h = [] ∧
    aget (generate_combined_forecast
        (⟨false, none, some "Timeout", none, none⟩ : SourceDoc)
        (⟨true, some [("temperature_c", PyVal.num 10)], none,
          some "Local Weather Station (file)", none⟩ : SourceDoc)).current
      "temperature_c" = some (PyVal.num 10) := by
  have h := generate_combined_forecast_partial_failure
    (⟨false, none, some "Timeout", none, none⟩ : SourceDoc)
    (⟨true, some [("temperature_c", PyVal.num 10)], none,
      some "Local Weather Station (file)", none⟩ : SourceDoc)
    [("temperature_c", PyVal.num 10)] rfl rfl rfl
  exact ⟨h.1, h.2.1, h.2.2.1,
    h.2.2.2.2 "temperature_c" (by decide) (PyVal.num 10) rfl (by decide)⟩

/-- C2: every candidate window with at least one matching forecast point is
scored exactly as the spec states: base quality/rating from the cloud-cover
thresholds, minus the moon-interference penalty, clamped to `[0, 10]`, with
the matching quality label, interference label and target set. -/
theorem calculate_observation_windows_rating (forecast : List WFPoint) (s e m : ℚ)
    (h : periodForecasts forecast s e ≠ []) :
    scoreWindow forecast s e m =
      some (specWindow (periodForecasts forecast s e) m) := by
  rw [scoreWindow]
  simp only [if_neg h]
  unfold specWindow specQuality specFinalRating specBaseRating specMoonPenalty
    specMoonInterference specTargets
  split_ifs
  all_goals refine congrArg some ?_
  all_goals rw [ObsWindow.mk.injEq]
  all_goals exact ⟨rfl, by norm_num [round1, pyRoundInt], rfl, rfl, rfl⟩

/-- Witness for C2 at the spec's example: 8 forecast points of 15% cloud cover
inside the window with 90% moon illumination give quality excellent with base
9.5, high interference and a final rating of 8.0. -/
theorem calculate_observation_windows_rating_witness :
    periodForecasts
        [⟨1, 15⟩, ⟨2, 15⟩, ⟨3, 15⟩, ⟨4, 15⟩, ⟨5, 15⟩, ⟨6, 15⟩, ⟨7, 15⟩, ⟨8, 15⟩]
        0 100 ≠ [] ∧
    scoreWindow
        [⟨1, 15⟩, ⟨2, 15⟩, ⟨3, 15⟩, ⟨4, 15⟩, ⟨5, 15⟩, ⟨6, 15⟩, ⟨7, 15⟩, ⟨8, 15⟩]
        0 100 90 =
      some ⟨"excellent", 8, 15, "high", targetsExcellent⟩ := by
  have hpf : periodForecasts
      [(⟨1, 15⟩ : WFPoint), ⟨2, 15⟩, ⟨3, 15⟩, ⟨4, 15⟩, ⟨5, 15⟩, ⟨6, 15⟩, ⟨7, 15⟩, ⟨8, 15⟩]
      0 100 =
      [⟨1, 15⟩, ⟨2, 15⟩, ⟨3, 15⟩, ⟨4, 15⟩, ⟨5, 15⟩, ⟨6, 15⟩, ⟨7, 15⟩, ⟨8, 15⟩] := by
    norm_num [periodForecasts, List.filter]
  have hne : periodForecasts
      [(⟨1, 15⟩ : WFPoint), ⟨2, 15⟩, ⟨3, 15⟩, ⟨4, 15⟩, ⟨5, 15⟩, ⟨6, 15⟩, ⟨7, 15⟩, ⟨8, 15⟩]
      0 100 ≠ [] := by
    rw [hpf]
    simp
  refine ⟨hne, ?_⟩
  rw [calculate_observation_windows_rating _ 0 100 90 hne, hpf]
  unfold specWindow specQuality specFinalRating specBaseRating specMoonPenalty
    specMoonInterference specTargets windowAvgCloud
  norm_num [round1, pyRoundInt, ObsWindow.mk.injEq, List.map, WFPoint.cloud_cover_pct]

/-- C3 (code bug): at the new-moon epoch itself the phase fraction is 0 and
both astronomy calculators report 100% illumination, while at phase fraction
1/2 (full moon) they report 0% — the triangular ramp demanded by the claim is
inverted on the first half-cycle.  The second half-cycle behaves as claimed
(50% at p = 3/4, falling to 0 as p approaches 1). -/
theorem moon_illumination_inverted_at_new_moon :
    moon_phase_float 0 = 0 ∧
    moon_illumination (moon_phase_float 0) = 100 ∧
    moon_illumination (1/2) = 0 ∧
    moon_illumination (3/4) = 50 := by
  have h0 : moon_phase_float 0 = 0 := by
    norm_num [moon_phase_float, qmod, lunar_month]
  refine ⟨h0, ?_, ?_, ?_⟩
  · rw [h0]
    norm_num [moon_illumination, moon_illumination_raw, abs_of_nonneg]
  · norm_num [moon_illumination, moon_illumination_raw, abs_of_nonneg]
  · norm_num [moon_illumination, moon_illumination_raw]

/-- C4: the Magnus dewpoint computation is duplicated verbatim at its three
call sites, so on equal (temperature, humidity) inputs the local file reader,
the online-API reader and the simulated generator return equal dewpoints. -/
theorem magnus_dewpoint_identical (tc rh : ℚ) :
    dewpoint_local_reader tc rh = dewpoint_online_reader tc rh ∧
    dewpoint_online_reader tc rh = dewpoint_simulated tc rh :=
  ⟨rfl, rfl⟩

/-- C8 (amended): the forecast generator names phases by eight equal-width
buckets of width 1/8 starting at New Moon (`phase_names[⌊8p⌋]`), while the
online fetcher uses buckets shifted by half a bucket — it rounds `8p` to the
nearest index, clamped at 7 (`phase_names[min 7 ⌊8p + 1/2⌋]`), so New Moon
only covers `[0, 1/16)` and Waning Crescent covers `[13/16, 1)`. -/
theorem moon_phase_bucket_characterization (p : ℚ) (h0 : 0 ≤ p) (h1 : p < 1) :
    phase_name_forecast p = phase_names.getD (⌊8 * p⌋).toNat "" ∧
    phase_name_online p = phase_names.getD (min 7 (⌊8 * p + 1/2⌋).toNat) "" := by
  constructor
  · unfold phase_name_forecast
    have hp8 : (0:ℚ) ≤ p * 8 := by positivity
    have hfl : pyInt (p * 8) = ⌊p * 8⌋ := by rw [pyInt, if_pos hp8]
    have h0f : 0 ≤ ⌊p * 8⌋ := Int.floor_nonneg.mpr hp8
    have h8f : ⌊p * 8⌋ < 8 := by
      rw [Int.floor_lt]
      push_cast
      linarith
    rw [hfl, Int.emod_eq_of_lt h0f h8f, mul_comm]
  · unfold phase_name_online
    split_ifs with h2 h3 h4 h5 h6 h7 h8
    · have hf : ⌊8 * p + 1/2⌋ = 0 := by
        rw [Int.floor_eq_iff]
        constructor <;> push_cast <;> linarith
      rw [hf]
      rfl
    · have hf : ⌊8 * p + 1/2⌋ = 1 := by
        rw [Int.floor_eq_iff]
        constructor <;> push_cast <;> linarith
      rw [hf]
      rfl
    · have hf : ⌊8 * p + 1/2⌋ = 2 := by
        rw [Int.floor_eq_iff]
        constructor <;> push_cast <;> linarith
      rw [hf]
      rfl
    · have hf : ⌊8 * p + 1/2⌋ = 3 := by
        rw [Int.floor_eq_iff]
        constructor <;> push_cast <;> linarith
      rw [hf]
      rfl
    · have hf : ⌊8 * p + 1/2⌋ = 4 := by
        rw [Int.floor_eq_iff]
        constructor <;> push_cast <;> linarith
      rw [hf]
      rfl
    · have hf : ⌊8 * p + 1/2⌋ = 5 := by
        rw [Int.floor_eq_iff]
        constructor <;> push_cast <;> linarith
      rw [hf]
      rfl
    · have hf : ⌊8 * p + 1/2⌋ = 6 := by
        rw [Int.floor_eq_iff]
        constructor <;> push_cast <;> linarith
      rw [hf]
      rfl
    · have h7le : (7:ℤ) ≤ ⌊8 * p + 1/2⌋ := by
        rw [Int.le_floor]
        push_cast
        linarith
      have hmin : min 7 (⌊8 * p + 1/2⌋).toNat = 7 := by omega
      rw [hmin]
      rfl

/-- Witness for C8 at p = 1/4: both implementations name the First Quarter
bucket according to their respective characterizations. -/
theorem moon_phase_bucket_characterization_witness :
    phase_name_forecast (1/4) = phase_names.getD (⌊8 * (1/4 : ℚ)⌋).toNat "" ∧
    phase_name_online (1/4) =
      phase_names.getD (min 7 (⌊8 * (1/4 : ℚ) + 1/2⌋).toNat) "" :=
  moon_phase_bucket_characterization (1/4) (by norm_num) (by norm_num)

/-- C8 counterexample: at phase fraction p = 1/10 ∈ [0, 0.125) the forecast
generator says "New Moon" (as the claimed equal-width buckets require) but the
online fetcher says "Waxing Crescent" — the two implementations disagree and
the online fetcher does not follow the claimed bucket boundaries. -/
theorem moon_phase_implementations_disagree :
    phase_name_forecast (1/10) = "New Moon" ∧
    phase_name_online (1/10) = "Waxing Crescent" ∧
    phase_name_forecast (1/10) ≠ phase_name_online (1/10) := by
  have hf : phase_name_forecast (1/10) = "New Moon" := by
    have hint : pyInt ((1:ℚ)/10 * 8) = 0 := by
      rw [pyInt, if_pos (by norm_num : (0:ℚ) ≤ 1/10 * 8)]
      norm_num
    unfold phase_name_forecast
    rw [hint]
    rfl
  have ho : phase_name_online (1/10) = "Waxing Crescent" := by
    unfold phase_name_online
    rw [if_neg (by norm_num : ¬((1:ℚ)/10 < 0.0625)),
      if_pos (by norm_num : (1:ℚ)/10 < 0.1875)]
  exact ⟨hf, ho, by rw [hf, ho]; decide⟩

/-- C10: the emitted `forecast_48h` sequence has exactly `min 16 n` points and
is the pointwise image of the first 16 provider entries, in provider order;
indices at 16 and beyond are never populated. -/
theorem forecast_48h_first_sixteen (forecast_list : List OWMItem) :
    (forecast_48h_of_list forecast_list).length = min 16 forecast_list.length ∧
    ∀ i : ℕ, (forecast_48h_of_list forecast_list)[i]? =
      if i < 16 then forecast_list[i]?.map owm_to_point else none := by
  constructor
  · simp [forecast_48h_of_list]
  · intro i
    by_cases hi : i < 16
    · rw [if_pos hi, forecast_48h_of_list, List.getElem?_map,
        List.getElem?_take_of_lt hi]
    · rw [if_neg hi]
      apply List.getElem?_eq_none
      calc (forecast_48h_of_list forecast_list).length
          ≤ 16 := by simp [forecast_48h_of_list]
        _ ≤ i := by omega

/-- C5 (amended): replaying the inbox drain with the drop directory unchanged
re-selects the same newest file, so the inbox, latest pointer and gallery are
left identical; the archive is identical provided the UTC date is unchanged;
and the status record is rewritten identical except for its `timestamp` field,
which is refreshed to the replay instant — in particular a replay under the
same clock reading is a full no-op. -/
theorem ingest_latest_replay (fs : SkyFS) (t1 t2 : Clock) :
    (ingest_latest t2 (ingest_latest t1 fs).2).2.inbox = (ingest_latest t1 fs).2.inbox ∧
    (ingest_latest t2 (ingest_latest t1 fs).2).2.latest = (ingest_latest t1 fs).2.latest ∧
    (ingest_latest t2 (ingest_latest t1 fs).2).2.gallery = (ingest_latest t1 fs).2.gallery ∧
    (t2.date = t1.date →
      (ingest_latest t2 (ingest_latest t1 fs).2).2.archive =
        (ingest_latest t1 fs).2.archive) ∧
    ((ingest_latest t2 (ingest_latest t1 fs).2).2.status = (ingest_latest t1 fs).2.status ∨
      ∃ r, (ingest_latest t1 fs).2.status = some r ∧
        (ingest_latest t2 (ingest_latest t1 fs).2).2.status =
          some { r with timestamp := t2.iso }) ∧
    (t2 = t1 → (ingest_latest t2 (ingest_latest t1 fs).2).2 = (ingest_latest t1 fs).2) := by
  cases hn : newest_jpg fs.inbox with
  | none =>
      refine ⟨?_, ?_, ?_, fun _ => ?_, Or.inl ?_, fun _ => ?_⟩ <;>
        simp [ingest_latest, hn]
  | some f =>
      refine ⟨?_, ?_, ?_, fun hd => ?_, Or.inr ⟨⟨"image_received", t1.iso, f.name,
        f.size, "active"⟩, ?_, ?_⟩, fun ht => ?_⟩
      · simp [ingest_latest, hn]
      · simp [ingest_latest, hn]
      · simp [ingest_latest, hn, aset_aset_self]
      · simp [ingest_latest, hn, aset_aset_self, hd]
      · simp [ingest_latest, hn]
      · simp [ingest_latest, hn]
      · subst ht
        simp [ingest_latest, hn, aset_aset_self]

/-- C5 counterexample: replaying the drain over an unchanged one-file inbox at
a later instant of the same day rewrites the status record with the replay
timestamp, so the status record after the replay differs from its state after
the first run — the replay is not a full no-op. -/
theorem ingest_latest_replay_changes_status :
    (ingest_latest (⟨"2026-02-01T00:05:00+00:00", "2026/02/01"⟩ : Clock)
        (ingest_latest (⟨"2026-02-01T00:00:00+00:00", "2026/02/01"⟩ : Clock)
          (⟨[⟨"sky.jpg", 0, 5, 7⟩], none, [], [], none⟩ : SkyFS)).2).2.status ≠
      (ingest_latest (⟨"2026-02-01T00:00:00+00:00", "2026/02/01"⟩ : Clock)
        (⟨[⟨"sky.jpg", 0, 5, 7⟩], none, [], [], none⟩ : SkyFS)).2.status := by
  decide

/-- Witness for C5: replaying under the very same clock reading reproduces the
exact filesystem state of the first run. -/
theorem ingest_latest_replay_witness :
    (ingest_latest (⟨"2026-02-01T00:00:00+00:00", "2026/02/01"⟩ : Clock)
        (ingest_latest (⟨"2026-02-01T00:00:00+00:00", "2026/02/01"⟩ : Clock)
          (⟨[⟨"sky.jpg", 0, 5, 7⟩], none, [], [], none⟩ : SkyFS)).2).2 =
      (ingest_latest (⟨"2026-02-01T00:00:00+00:00", "2026/02/01"⟩ : Clock)
        (⟨[⟨"sky.jpg", 0, 5, 7⟩], none, [], [], none⟩ : SkyFS)).2 :=
  (ingest_latest_replay (⟨[⟨"sky.jpg", 0, 5, 7⟩], none, [], [], none⟩ : SkyFS)
      (⟨"2026-02-01T00:00:00+00:00", "2026/02/01"⟩ : Clock)
      (⟨"2026-02-01T00:00:00+00:00", "2026/02/01"⟩ : Clock)).2.2.2.2.2 rfl

/-- C6 (amended): a missing or zero-byte upload is rejected with no archive,
gallery, latest-pointer or status-record writes; a valid upload is copied into
the dated archive directory and the flat gallery and the status record is
overwritten with the transfer's metadata, while the latest pointer is left
untouched — the FTP receiver does not write the well-known latest file. -/
theorem process_image_complete_effects (now : Clock) (peer : String)
    (upload : Option Upload) (fs : FtpFS) :
    (upload = none → process_image_complete now peer upload fs = fs) ∧
    (∀ u, upload = some u → u.size = 0 →
      process_image_complete now peer upload fs = fs) ∧
    (∀ u, upload = some u → u.size ≠ 0 →
      (process_image_complete now peer upload fs).latest = fs.latest ∧
      (process_image_complete now peer upload fs).archive =
        aset fs.archive (now.date, u.name) u.content ∧
      (process_image_complete now peer upload fs).gallery =
        aset fs.gallery u.name u.content ∧
      (process_image_complete now peer upload fs).status =
        some ⟨"image_received", now.iso, u.name, u.size, "active", peer⟩) := by
  refine ⟨?_, ?_, ?_⟩
  · intro h
    subst h
    rfl
  · intro u h hz
    subst h
    simp [process_image_complete, hz]
  · intro u h hz
    subst h
    refine ⟨?_, ?_, ?_, ?_⟩ <;> simp [process_image_complete, hz]

/-- C6 counterexample: a valid completed upload lands in the archive and the
gallery and the status record is overwritten, but the well-known latest file
is not touched — it stays absent here — contradicting the claim that the
upload is also copied over the latest file. -/
theorem process_image_complete_skips_latest :
    (process_image_complete (⟨"2026-02-01T00:00:00+00:00", "2026/02/01"⟩ : Clock)
        "198.51.100.7:2121" (some ⟨"cam.jpg", 5, 9⟩)
        (⟨[], [], none, none⟩ : FtpFS)).latest = none ∧
    aget (process_image_complete (⟨"2026-02-01T00:00:00+00:00", "2026/02/01"⟩ : Clock)
        "198.51.100.7:2121" (some ⟨"cam.jpg", 5, 9⟩)
        (⟨[], [], none, none⟩ : FtpFS)).gallery "cam.jpg" = some 9 ∧
    aget (process_image_complete (⟨"2026-02-01T00:00:00+00:00", "2026/02/01"⟩ : Clock)
        "198.51.100.7:2121" (some ⟨"cam.jpg", 5, 9⟩)
        (⟨[], [], none, none⟩ : FtpFS)).archive ("2026/02/01", "cam.jpg") = some 9 := by
  exact ⟨rfl, rfl, rfl⟩

/-- Witness for C6: a 4-byte upload leaves a pre-existing latest pointer
untouched and overwrites the status record with the transfer metadata. -/
theorem process_image_complete_effects_witness :
    (process_image_complete (⟨"2026-02-01T00:00:00+00:00", "2026/02/01"⟩ : Clock)
        "198.51.100.7:2121" (some ⟨"img.jpg", 4, 3⟩)
        (⟨[], [], some 1, none⟩ : FtpFS)).latest = some 1 ∧
    (process_image_complete (⟨"2026-02-01T00:00:00+00:00", "2026/02/01"⟩ : Clock)
        "198.51.100.7:2121" (some ⟨"img.jpg", 4, 3⟩)
        (⟨[], [], some 1, none⟩ : FtpFS)).status =
      some ⟨"image_received", "2026-02-01T00:00:00+00:00", "img.jpg", 4, "active",
        "198.51.100.7:2121"⟩ :=
  have h := process_image_complete_effects
    (⟨"2026-02-01T00:00:00+00:00", "2026/02/01"⟩ : Clock) "198.51.100.7:2121"
    (some ⟨"img.jpg", 4, 3⟩) (⟨[], [], some 1, none⟩ : FtpFS)
  ⟨(h.2.2 ⟨"img.jpg", 4, 3⟩ rfl (by decide)).1,
   (h.2.2 ⟨"img.jpg", 4, 3⟩ rfl (by decide)).2.2.2⟩

/-! Lemmas for parse_json_weather / update_from_json. -/

theorem normalizeStep_not_recognized (acc : Dict) (kv : String × PyVal)
    (h : recognizedNumeric kv = false) : normalizeStep acc kv = acc := by
  unfold normalizeStep
  by_cases hr : targetKey kv.1 ∈ field_map.map Prod.snd
  · rw [if_pos hr]
    cases hf : pyFloat kv.2 with
    | none => rfl
    | some q =>
        exfalso
        unfold recognizedNumeric at h
        rw [hf] at h
        simp [hr] at h
  · rw [if_neg hr]

theorem normalizeStep_recognized (acc : Dict) (kv : String × PyVal)
    (h : recognizedNumeric kv = true) :
    ∃ q, pyFloat kv.2 = some q ∧
      normalizeStep acc kv = aset acc (targetKey kv.1) (PyVal.num q) := by
  unfold recognizedNumeric at h
  rw [Bool.and_eq_true] at h
  obtain ⟨h1, h2⟩ := h
  rw [decide_eq_true_eq] at h1
  cases hf : pyFloat kv.2 with
  | none =>
      rw [hf] at h2
      simp at h2
  | some q =>
      refine ⟨q, rfl, ?_⟩
      unfold normalizeStep
      rw [if_pos h1, hf]

theorem normFold_ne_nil (l : List (String × PyVal)) (acc : Dict) (h : acc ≠ []) :
    l.foldl normalizeStep acc ≠ [] := by
  induction l generalizing acc with
  | nil => exact h
  | cons kv rest ih =>
      rw [List.foldl_cons]
      apply ih
      cases hr : recognizedNumeric kv with
      | false =>
          rw [normalizeStep_not_recognized acc kv hr]
          exact h
      | true =>
          obtain ⟨q, _, hstep⟩ := normalizeStep_recognized acc kv hr
          rw [hstep]
          exact aset_ne_nil acc _ _

theorem normFold_nil_iff (l : List (String × PyVal)) :
    l.foldl normalizeStep [] = [] ↔ ∀ kv ∈ l, recognizedNumeric kv = false := by
  induction l with
  | nil => simp
  | cons kv rest ih =>
      rw [List.foldl_cons]
      cases hr : recognizedNumeric kv with
      | false =>
          rw [normalizeStep_not_recognized [] kv hr, ih]
          simp [List.forall_mem_cons, hr]
      | true =>
          obtain ⟨q, _, hstep⟩ := normalizeStep_recognized [] kv hr
          rw [hstep]
          constructor
          · intro hfold
            exact absurd hfold (normFold_ne_nil rest _ (aset_ne_nil [] _ _))
          · intro hall
            have hkv := hall kv (List.mem_cons_self _ _)
            rw [hr] at hkv
            exact Bool.noConfusion hkv

theorem aget_foldl_aset_not_mem (l : List (String × PyVal)) (c0 : Dict) (k : String)
    (h : ∀ kv ∈ l, kv.1 ≠ k) :
    aget (l.foldl (fun c kv => aset c kv.1 kv.2) c0) k = aget c0 k := by
  induction l generalizing c0 with
  | nil => rfl
  | cons kv rest ih =>
      rw [List.foldl_cons, ih _ (fun kv' h' => h kv' (List.mem_cons_of_mem _ h')),
        aget_aset_ne c0 kv.2 (h kv (List.mem_cons_self _ _))]

/-- C9: update_from_json is atomic on error — an undecodable payload, a
non-object payload, or an object contributing no recognized numeric field
leaves the store untouched and returns False; it returns True exactly when
parse_json_weather extracted something, which happens iff some item has a
recognized key with a convertible value; and stored fields absent from the
extracted update (including a stored timestamp) survive the write. -/
theorem update_from_json_atomic (input : Option PyJson) (store : Dict) (now : String) :
    ((∀ j, input = some j → parse_json_weather j = none) →
      update_from_json input store now = (false, store)) ∧
    ((update_from_json input store now).1 = true ↔
      ∃ j, input = some j ∧ (parse_json_weather j).isSome) ∧
    (∀ j, parse_json_weather j = none ↔
      ∀ kv ∈ jsonItems j, recognizedNumeric kv = false) ∧
    (∀ k v, aget store k = some v →
      (∀ j d, input = some j → parse_json_weather j = some d → aget d k = none) →
      aget (update_from_json input store now).2 k = some v) := by
  refine ⟨?_, ?_, ?_, ?_⟩
  · intro h
    cases input with
    | none => rfl
    | some j => simp only [update_from_json, h j rfl]
  · cases input with
    | none => simp [update_from_json]
    | some j =>
        cases hp : parse_json_weather j with
        | none => simp [update_from_json, hp]
        | some d => simp [update_from_json, hp]
  · intro j
    cases j with
    | nonObject => simp [parse_json_weather, jsonItems]
    | obj d =>
        simp only [parse_json_weather, jsonItems]
        constructor
        · intro h
          by_cases hnil : d.foldl normalizeStep [] = []
          · exact (normFold_nil_iff d).mp hnil
          · rw [if_neg hnil] at h
            simp at h
        · intro h
          rw [if_pos ((normFold_nil_iff d).mpr h)]
  · intro k v hv hupdate
    cases input with
    | none => exact hv
    | some j =>
        cases hp : parse_json_weather j with
        | none =>
            simp only [update_from_json, hp]
            exact hv
        | some d =>
            have hd : aget d k = none := hupdate j d rfl hp
            have hne : ∀ kv ∈ d, kv.1 ≠ k := (aget_eq_none_iff d k).mp hd
            simp only [update_from_json, hp]
            have hcur : aget (d.foldl (fun c kv => aset c kv.1 kv.2) store) k = some v := by
              rw [aget_foldl_aset_not_mem d store k hne]
              exact hv
            by_cases hts :
              (aget (d.foldl (fun c kv => aset c kv.1 kv.2) store) "timestamp").isSome
            · rw [if_pos hts]
              exact hcur
            · rw [if_neg hts]
              by_cases hk : k = "timestamp"
              · exfalso
                rw [hk] at hcur
                rw [hcur] at hts
                exact hts rfl
              · rw [aget_aset_ne _ _ (Ne.symm hk)]
                exact hcur

/-- Witness for C9: a payload with a capitalized alias, an unrecognized key
and a second recognized field returns True, and the stored pressure field,
absent from the update, survives unchanged. -/
theorem update_from_json_atomic_witness :
    (update_from_json
        (some (PyJson.obj [("Temp", PyVal.num 12), ("station", PyVal.str "roof"),
          ("rh", PyVal.num 55)]))
        [("pressure_hpa", PyVal.num 1000), ("timestamp", PyVal.str "T0")] "T1").1 = true ∧
    aget (update_from_json
        (some (PyJson.obj [("Temp", PyVal.num 12), ("station", PyVal.str "roof"),
          ("rh", PyVal.num 55)]))
        [("pressure_hpa", PyVal.num 1000), ("timestamp", PyVal.str "T0")] "T1").2
      "pressure_hpa" = some (PyVal.num 1000) := by
  have h := update_from_json_atomic
    (some (PyJson.obj [("Temp", PyVal.num 12), ("station", PyVal.str "roof"),
      ("rh", PyVal.num 55)]))
    [("pressure_hpa", PyVal.num 1000), ("timestamp", PyVal.str "T0")] "T1"
  refine ⟨h.2.1.mpr ⟨_, rfl, by decide⟩,
    h.2.2.2 "pressure_hpa" (PyVal.num 1000) (by decide) ?_⟩
  intro j d hj hd
  cases hj
  rw [show parse_json_weather (PyJson.obj [("Temp", PyVal.num 12),
      ("station", PyVal.str "roof"), ("rh", PyVal.num 55)]) =
      some [("temperature_c", PyVal.num 12), ("humidity_pct", PyVal.num 55)] from by
    decide] at hd
  cases hd
  decide

end Skycam
